import Mathlib

/-!
Shallow embedding of the quiz-bot navigation core (`src/main.py`).

Texts are modelled as `List Char` (Python `str` with `len` counting code
points), Python `int` question/choice indices as `Nat` (all indices on the
wire are decimal digit strings produced by `str()` on non-negative ints),
dicts with `.get(key, default)` as association lists with an explicit
default, and the aiogram side effects (`edit_text`, `answer` on a message,
`callback.answer`, `asyncio.sleep`) as an explicit trace of `Effect`s.
The fixed 1.5 s pacing pause is the opaque marker `Effect.sleepPause`;
its numeric value plays no role in any claim.
-/

namespace TBot

/-- Coerce a Lean string literal to the `List Char` text representation. -/
def str (s : String) : List Char := s.data

/-- Decimal rendering of a `Nat`, with explicit fuel so that it is
structurally recursive (mirrors Python `str(n)` for `n ≥ 0`).
The accumulator collects low-order digits, as in the usual schoolbook
algorithm. -/
def natDigitsCore : Nat → Nat → List Char → List Char
  | 0, _, acc => acc
  | fuel + 1, n, acc =>
    if n < 10 then Nat.digitChar n :: acc
    else natDigitsCore fuel (n / 10) (Nat.digitChar (n % 10) :: acc)

/-- Python `str(n)` for a non-negative int. -/
def natDigits (n : Nat) : List Char := natDigitsCore (n + 1) n []

/-- Python `int(s)` on a string of decimal digits. -/
def parseDigits (cs : List Char) : Nat :=
  cs.foldl (fun a c => 10 * a + (c.toNat - 48)) 0

/-- Python `s.split(sep)` for a one-character separator, on the
`List Char` representation. -/
def splitOn (sep : Char) : List Char → List (List Char)
  | [] => [[]]
  | c :: cs =>
    let r := splitOn sep cs
    if c = sep then [] :: r else (c :: r.headD []) :: r.tail

theorem splitOn_ne_nil (sep : Char) (cs : List Char) : splitOn sep cs ≠ [] := by
  cases cs with
  | nil => simp [splitOn]
  | cons c cs =>
      simp only [splitOn]
      split <;> simp

theorem splitOn_of_not_mem {sep : Char} {cs : List Char} (h : sep ∉ cs) :
    splitOn sep cs = [cs] := by
  induction cs with
  | nil => rfl
  | cons c cs ih =>
      simp only [List.mem_cons, not_or] at h
      simp [splitOn, Ne.symm h.1, ih h.2]

theorem splitOn_append {sep : Char} {xs : List Char} (ys : List Char)
    (h : sep ∉ xs) : splitOn sep (xs ++ sep :: ys) = xs :: splitOn sep ys := by
  induction xs with
  | nil => simp [splitOn]
  | cons x xs ih =>
      simp only [List.mem_cons, not_or] at h
      simp [splitOn, ih h.2, Ne.symm h.1]

theorem natDigitsCore_acc (fuel : Nat) :
    ∀ n acc, natDigitsCore fuel n acc = natDigitsCore fuel n [] ++ acc := by
  induction fuel with
  | zero => intro n acc; rfl
  | succ fuel ih =>
      intro n acc
      simp only [natDigitsCore]
      split
      · rfl
      · rw [ih (n / 10) (Nat.digitChar (n % 10) :: acc),
          ih (n / 10) [Nat.digitChar (n % 10)], List.append_assoc]
        rfl

theorem natDigitsCore_fuel (fuel : Nat) :
    ∀ fuel' n, n < fuel → n < fuel' →
      natDigitsCore fuel n [] = natDigitsCore fuel' n [] := by
  induction fuel with
  | zero => intro fuel' n h; omega
  | succ fuel ih =>
      intro fuel' n h h'
      match fuel', h' with
      | fuel' + 1, h' =>
        simp only [natDigitsCore]
        split
        · rfl
        · rw [natDigitsCore_acc fuel, natDigitsCore_acc fuel']
          have hd : n / 10 < n := Nat.div_lt_self (by omega) (by omega)
          rw [ih fuel' (n / 10) (by omega) (by omega)]

theorem natDigits_lt (n : Nat) (h : n < 10) : natDigits n = [Nat.digitChar n] := by
  simp [natDigits, natDigitsCore, h]

theorem natDigits_ge (n : Nat) (h : 10 ≤ n) :
    natDigits n = natDigits (n / 10) ++ [Nat.digitChar (n % 10)] := by
  have hd : n / 10 < n := Nat.div_lt_self (by omega) (by omega)
  have h1 : natDigits n = natDigitsCore n (n / 10) [Nat.digitChar (n % 10)] := by
    simp [natDigits, natDigitsCore, Nat.not_lt.mpr h]
  rw [h1, natDigitsCore_acc,
    natDigitsCore_fuel n (n / 10 + 1) (n / 10) hd (Nat.lt_succ_self _)]
  rfl

theorem digitChar_toNat {d : Nat} (h : d < 10) : (Nat.digitChar d).toNat = 48 + d := by
  interval_cases d <;> rfl

theorem digitChar_ne_underscore {d : Nat} (h : d < 10) : Nat.digitChar d ≠ '_' := by
  interval_cases d <;> decide

theorem natDigits_no_underscore (n : Nat) : '_' ∉ natDigits n := by
  induction n using Nat.strong_induction_on with
  | _ n ih =>
      by_cases h : n < 10
      · rw [natDigits_lt n h]
        simp [ (digitChar_ne_underscore h).symm ]
      · rw [natDigits_ge n (by omega)]
        simp only [List.mem_append, List.mem_singleton, not_or]
        refine ⟨ih (n / 10) (Nat.div_lt_self (by omega) (by omega)), ?_⟩
        intro hc
        exact digitChar_ne_underscore (Nat.mod_lt n (by omega)) hc.symm

theorem parseDigits_foldl (n : Nat) :
    ∀ a, (natDigits n).foldl (fun a c => 10 * a + (c.toNat - 48)) a
      = a * 10 ^ (natDigits n).length + n := by
  induction n using Nat.strong_induction_on with
  | _ n ih =>
      intro a
      by_cases h : n < 10
      · rw [natDigits_lt n h]
        simp [List.foldl, digitChar_toNat h]
        omega
      · rw [natDigits_ge n (by omega)]
        rw [List.foldl_append]
        rw [ih (n / 10) (Nat.div_lt_self (by omega) (by omega)) a]
        simp only [List.foldl, List.length_append, List.length_singleton]
        rw [digitChar_toNat (Nat.mod_lt n (by omega))]
        have : n % 10 + 48 - 48 = n % 10 := by omega
        ring_nf
        omega

theorem parseDigits_natDigits (n : Nat) : parseDigits (natDigits n) = n := by
  unfold parseDigits
  rw [parseDigits_foldl n 0]
  simp

/-- One question record of `QUESTIONS_BASE.json`: the prompt lives under a
per-question key (`question1`, `question2`, ...), modelled with the other
string-valued keys as an association list queried with the empty-string
default of `dict.get(key, "")`; the `answers` and `correct_answer` keys are
`Option`s (`none` = key absent), and the handlers apply the defaults of
`dict.get("answers", [])` / `dict.get("correct_answer", "")` at use sites.
Keeping absence distinct from an empty value is needed because Python
treats the empty dict `{}` as falsy (see `Question.isEmptyDict`). -/
structure Question where
  textFields : List (List Char × List Char)
  answers : Option (List (List Char))
  correct_answer : Option (List Char)
deriving DecidableEq, Repr

/-- Python truthiness of a record dict: `not question_data` holds for the
empty dict `{}`, i.e. a record with no keys at all. -/
def Question.isEmptyDict (q : Question) : Bool :=
  q.textFields.isEmpty && q.answers.isNone && q.correct_answer.isNone

/-- Python `question_data.get(key, "")` over the association-list model. -/
def dictGet (d : List (List Char × List Char)) (k : List Char) : List Char :=
  match d.find? (fun p => p.1 = k) with
  | some p => p.2
  | none => []

/-- The loaded question bank (`questions_data`). -/
abbrev Bank := List Question

/-- A rendered inline button: (label text, callback_data). -/
abbrev Button := List Char × List Char

/-- Rows of buttons (`InlineKeyboardMarkup.inline_keyboard`). -/
abbrev Keyboard := List (List Button)

/-- Per-conversation FSMContext data: the keys written by
`state.update_data(current_question=..., mode=...)`; `none` = key absent
(also the state after `state.clear()`). -/
structure Session where
  current_question : Option Nat
  mode : Option (List Char)
deriving DecidableEq, Repr

/-- One observable side effect of a handler, in execution order:
`callback.message.edit_text`, `callback.message.answer` (a fresh message),
`callback.answer` (toast), and the fixed 1.5 s `asyncio.sleep` pause. -/
inductive Effect where
  | editText : List Char → Option Keyboard → Effect
  | sendMessage : List Char → Option Keyboard → Effect
  | answerCallback : Option (List Char) → Effect
  | sleepPause : Effect
deriving DecidableEq, Repr

/-- Source `get_question_by_number`: 1-based lookup, `None` out of range. -/
def get_question_by_number (questions_data : Bank) (question_num : Nat) :
    Option Question :=
  if 1 ≤ question_num ∧ question_num ≤ questions_data.length then
    questions_data.get? (question_num - 1)
  else none

/-- Source `get_question_key`: `f"question{question_num}"`. -/
def get_question_key (question_num : Nat) : List Char :=
  str "question" ++ natDigits question_num

/-- The `"🔙 Вернуться в меню"` button used throughout. -/
def menuButton : Button := (str "🔙 Вернуться в меню", str "back_to_menu")

/-- The answer-button wire token `f"answer_{question_num}_{idx}_{mode}"`. -/
def answer_token (question_num idx : Nat) (mode : List Char) : List Char :=
  str "answer_" ++ natDigits question_num ++ str "_" ++ natDigits idx
    ++ str "_" ++ mode

/-- Source `create_answer_keyboard`: one button per answer (label truncated to the
64-char Telegram limit: full text when `len ≤ 64`, else first 61 chars plus
`"..."`), then the return-to-menu row. -/
def create_answer_keyboard (answers : List (List Char)) (question_num : Nat)
    (mode : List Char) : Keyboard :=
  (answers.enum.map fun p =>
    [((if p.2.length ≤ 64 then p.2 else p.2.take 61 ++ str "..."),
      answer_token question_num p.1 mode)])
  ++ [[menuButton]]

/-- One row of `create_question_selection_keyboard`: inner
`for j in range(5)` with the `num <= 60` guard, `i` the row's start offset. -/
def selection_row (i : Nat) : List Button :=
  (List.range 5).filterMap fun j =>
    if i + j + 1 ≤ 60 then
      some (natDigits (i + j + 1), str "select_q_" ++ natDigits (i + j + 1))
    else none

/-- Source `create_question_selection_keyboard`: `for i in range(0, 60, 5)` rows of
up to 5 numbered buttons, then the return-to-menu row. Takes no argument:
the bounds are the hard-coded constant 60, not the bank length. -/
def create_question_selection_keyboard : Keyboard :=
  (((List.range 12).map fun k => 5 * k).map selection_row) ++ [[menuButton]]

/-- Source `create_main_menu_keyboard`. -/
def create_main_menu_keyboard : Keyboard :=
  [[(str "📝 Сплошная сессия", str "mode_continuous")],
   [(str "🔍 Выбор вопроса", str "mode_select")]]

/-- The message text built by `show_question`: header with the question
number, the prompt, then each answer appended as `f"\n{answer}\n"`. -/
def question_screen_text (question_num : Nat) (question_text : List Char)
    (answers : List (List Char)) : List Char :=
  answers.foldl (fun t a => t ++ str "\n" ++ a ++ str "\n")
    (str "❓ <b>Вопрос " ++ natDigits question_num ++ str ":</b>\n\n"
      ++ question_text ++ str "\n\n<b>Варианты ответов:</b>\n")

/-- Source `show_question`: resolve the question, fall back to the inline
not-found / load-error messages, otherwise edit in the question screen with
the answer keyboard. Touches no session state. The source's
`if not question_data:` is falsy both for `None` (out of range) and for an
in-range empty record `{}`, so both take the not-found branch. -/
def show_question (questions_data : Bank) (question_num : Nat)
    (mode : List Char) : List Effect :=
  match get_question_by_number questions_data question_num with
  | none => [.editText (str "❌ Вопрос не найден!") none]
  | some question_data =>
    if question_data.isEmptyDict then
      [.editText (str "❌ Вопрос не найден!") none]
    else
    let question_text := dictGet question_data.textFields
      (get_question_key question_num)
    let answers := question_data.answers.getD []
    if question_text = [] ∨ answers = [] then
      [.editText (str "❌ Ошибка загрузки вопроса!") none]
    else
      [.editText (question_screen_text question_num question_text answers)
        (some (create_answer_keyboard answers question_num mode))]

/-- Source `mode_continuous`: enter Continuous mode at question 1. -/
def mode_continuous (questions_data : Bank) (session : Session) :
    Session × List Effect :=
  ({ session with current_question := some 1, mode := some (str "continuous") },
   show_question questions_data 1 (str "continuous") ++ [.answerCallback none])

/-- Source `back_to_menu`: `state.clear()` then re-render the mode menu. -/
def back_to_menu (_session : Session) : Session × List Effect :=
  (⟨none, none⟩,
   [.editText (str "Выберите режим тестирования:")
      (some create_main_menu_keyboard),
    .answerCallback none])

/-- Source `select_question`: parse the picked number from the last `_`-separated
piece of the callback data, store it in the session together with
`mode="select"`, then show the question. -/
def select_question (questions_data : Bank) (session : Session)
    (callback_data : List Char) : Session × List Effect :=
  let question_num := parseDigits ((splitOn '_' callback_data).getLastD [])
  ({ session with current_question := some question_num,
                  mode := some (str "select") },
   show_question questions_data question_num (str "select")
     ++ [.answerCallback none])

/-- The parsing prefix of `handle_answer` (lines 188–191):
`parts = callback.data.split("_")`, then `int(parts[1])`, `int(parts[2])`,
`parts[3]`. Absent positions default to the empty string. -/
def parse_answer_token (callback_data : List Char) : Nat × Nat × List Char :=
  let parts := splitOn '_' callback_data
  (parseDigits (parts.getD 1 []), parseDigits (parts.getD 2 []),
   parts.getD 3 [])

/-- Lines 206-207: `selected_answer = answers[answer_idx]` followed by
`is_correct = selected_answer == correct_answer` (exact string equality). -/
def is_correct (answers : List (List Char)) (answer_idx : Nat)
    (correct_answer : List Char) : Bool :=
  answers.getD answer_idx [] = correct_answer

/-- The praise text `"✅ Молодец! Правильный ответ!"`. -/
def praiseText : List Char := str "✅ Молодец! Правильный ответ!"

/-- The wrong-answer result body: full correct-answer text, untruncated. -/
def wrongText (correct_answer : List Char) : List Char :=
  str "❌ Ошибочка!\n\n<b>Правильный ответ:</b>\n\n" ++ correct_answer

/-- The Continuous-mode completion message. -/
def completedText : List Char :=
  str "🎉 Поздравляем! Вы прошли все 60 вопросов!\n\nХотите начать заново?"

/-- The `"➡️ Следующий вопрос"` button carrying
`f"next_question_{next_question}_continuous"`. -/
def nextButton (next_question : Nat) : Button :=
  (str "➡️ Следующий вопрос",
   str "next_question_" ++ natDigits next_question ++ str "_continuous")

/-- The result screen's edit: if `len(response_text) > 4000` the text is cut
at 4000, the first part edited in with the keyboard and the remainder sent
as a fresh message without one; otherwise a single edit with the keyboard.
This block appears verbatim in both branches of `handle_answer`. -/
def edit_or_split (response_text : List Char) (keyboard : Keyboard) :
    List Effect :=
  if 4000 < response_text.length then
    [.editText (response_text.take 4000) (some keyboard),
     .sendMessage (response_text.drop 4000) none]
  else
    [.editText response_text (some keyboard)]

/-- Source `handle_answer`: parse the token, validate, judge the answer, then act
according to mode/correctness exactly as in the source (lines 185–316).
Its `if not question_data:` guard is falsy both for `None` and for an
in-range empty record `{}`; both answer with the error toast and return. -/
def handle_answer (questions_data : Bank) (session : Session)
    (callback_data : List Char) : Session × List Effect :=
  let parsed := parse_answer_token callback_data
  let question_num := parsed.1
  let answer_idx := parsed.2.1
  let mode := parsed.2.2
  match get_question_by_number questions_data question_num with
  | none => (session, [.answerCallback (some (str "❌ Ошибка!"))])
  | some question_data =>
    if question_data.isEmptyDict then
      (session, [.answerCallback (some (str "❌ Ошибка!"))])
    else
    let answers := question_data.answers.getD []
    let correct_answer := question_data.correct_answer.getD []
    if answers.length ≤ answer_idx then
      (session, [.answerCallback (some (str "❌ Ошибка!"))])
    else if mode = str "continuous" then
      if is_correct answers answer_idx correct_answer then
        if question_num + 1 ≤ 60 then
          ({ session with current_question := some (question_num + 1) },
           [.answerCallback none, .editText praiseText none, .sleepPause]
             ++ show_question questions_data (question_num + 1) mode)
        else
          (session,
           [.answerCallback none, .editText praiseText none, .sleepPause,
            .editText completedText (some [[menuButton]])])
      else
        (session,
         .answerCallback none ::
           edit_or_split (wrongText correct_answer)
             ((if question_num + 1 ≤ 60 then [[nextButton (question_num + 1)]]
               else []) ++ [[menuButton]]))
    else
      (session,
       .answerCallback none ::
         edit_or_split
           (if is_correct answers answer_idx correct_answer then praiseText
            else wrongText correct_answer)
           [[(str "🔄 Выбрать другой вопрос", str "mode_select")],
            [menuButton]])

/-- Source `handle_next_question`: parse `int(parts[2])`, `parts[3]` out of
`next_question_{n}_{mode}`, advance the session's question index and show
the question. -/
def handle_next_question (questions_data : Bank) (session : Session)
    (callback_data : List Char) : Session × List Effect :=
  let parts := splitOn '_' callback_data
  let next_question := parseDigits (parts.getD 2 [])
  let mode := parts.getD 3 []
  ({ session with current_question := some next_question },
   show_question questions_data next_question mode ++ [.answerCallback none])

/-! Concrete records and banks used for counterexamples and witnesses. -/

/-- A well-formed record: prompt present, `correct_answer` is choice 0. -/
def qA : Question :=
  ⟨[(str "question1", str "Q")], some [str "A", str "B"], some (str "A")⟩

/-- A record whose `correct_answer` matches none of its choices. -/
def qMismatch : Question :=
  ⟨[(str "question1", str "Q")], some [str "A", str "B"], some (str "C")⟩

/-- A record with no prompt field but a non-empty set of other keys. -/
def qNoText : Question := ⟨[], some [str "A"], some (str "A")⟩

/-- The empty record `{}` (no keys at all), falsy in Python. -/
def qEmptyRec : Question := ⟨[], none, none⟩

/-- A one-question bank. -/
def bank1 : Bank := [qA]

/-- A three-question bank. -/
def bank3 : Bank := [qA, qA, qMismatch]

/-- A bank whose single question is missing its prompt text. -/
def bankNoText : Bank := [qNoText]

/-- A bank whose single question is the empty record `{}`. -/
def bankEmptyRec : Bank := [qEmptyRec]

/-- A fresh session (no keys set). -/
def session0 : Session := ⟨none, none⟩

/-! Helper lemmas shared by the claim theorems. -/

theorem answer_token_split_form (question_num idx : Nat) (mode : List Char) :
    answer_token question_num idx mode
      = str "answer" ++ '_' :: (natDigits question_num
          ++ '_' :: (natDigits idx ++ '_' :: mode)) := by
  simp [answer_token, str, List.append_assoc]

theorem parse_answer_token_round (question_num idx : Nat) (mode : List Char)
    (h : '_' ∉ mode) :
    parse_answer_token (answer_token question_num idx mode)
      = (question_num, idx, mode) := by
  rw [parse_answer_token, answer_token_split_form]
  rw [splitOn_append _ (by decide)]
  rw [splitOn_append _ (natDigits_no_underscore _)]
  rw [splitOn_append _ (natDigits_no_underscore _)]
  rw [splitOn_of_not_mem h]
  simp [parseDigits_natDigits]

theorem splitOn_next_token (k : Nat) :
    splitOn '_' (str "next_question_" ++ natDigits k ++ str "_continuous")
      = [str "next", str "question", natDigits k, str "continuous"] := by
  have h1 : str "next_question_" ++ natDigits k ++ str "_continuous"
      = str "next" ++ '_' :: (str "question"
          ++ '_' :: (natDigits k ++ '_' :: str "continuous")) := by
    simp [str, List.append_assoc]
  rw [h1, splitOn_append _ (by decide), splitOn_append _ (by decide),
    splitOn_append _ (natDigits_no_underscore _), splitOn_of_not_mem (by decide)]

theorem splitOn_select_token (n : Nat) :
    splitOn '_' (str "select_q_" ++ natDigits n)
      = [str "select", str "q", natDigits n] := by
  have h1 : str "select_q_" ++ natDigits n
      = str "select" ++ '_' :: (str "q" ++ '_' :: natDigits n) := by
    simp [str, List.append_assoc]
  rw [h1, splitOn_append _ (by decide), splitOn_append _ (by decide),
    splitOn_of_not_mem (natDigits_no_underscore _)]

theorem isEmptyDict_false_of_index {q : Question} {i : Nat}
    (hi : i < (q.answers.getD []).length) : q.isEmptyDict = false := by
  cases h : q.answers with
  | none => rw [h] at hi; simp at hi
  | some l => simp [Question.isEmptyDict, h]

theorem sleepPause_not_mem_edit_or_split (t : List Char) (kb : Keyboard) :
    Effect.sleepPause ∉ edit_or_split t kb := by
  unfold edit_or_split
  split <;> simp

theorem foldl_body_suffix (l : List (List Char)) (acc : List Char) :
    ∃ suf, l.foldl (fun t a => t ++ str "\n" ++ a ++ str "\n") acc
      = acc ++ suf := by
  induction l generalizing acc with
  | nil => exact ⟨[], by simp⟩
  | cons x xs ih =>
      obtain ⟨suf, hs⟩ := ih (acc ++ str "\n" ++ x ++ str "\n")
      refine ⟨str "\n" ++ x ++ str "\n" ++ suf, ?_⟩
      rw [List.foldl_cons, hs]
      simp [List.append_assoc]

theorem foldl_body_contains {a : List Char} {l : List (List Char)}
    (h : a ∈ l) (acc : List Char) :
    ∃ pre post, l.foldl (fun t x => t ++ str "\n" ++ x ++ str "\n") acc
      = pre ++ a ++ post := by
  induction l generalizing acc with
  | nil => cases h
  | cons x xs ih =>
      rcases List.mem_cons.mp h with rfl | hx
      · obtain ⟨suf, hs⟩ := foldl_body_suffix xs (acc ++ str "\n" ++ a ++ str "\n")
        refine ⟨acc ++ str "\n", str "\n" ++ suf, ?_⟩
        rw [List.foldl_cons, hs]
        simp [List.append_assoc]
      · exact ih hx _

/-! The claim theorems. -/

/-- C2: an answer is judged correct exactly when the selected choice string
is character-for-character equal to the record's `correct_answer` text; in
particular, when `correct_answer` matches none of the record's choices,
every in-range selection is judged incorrect. -/
theorem c2_exact_equality_judgement (q : Question) (i : Nat)
    (hi : i < (q.answers.getD []).length) :
    (is_correct (q.answers.getD []) i (q.correct_answer.getD []) = true
      ↔ (q.answers.getD []).getD i [] = q.correct_answer.getD [])
    ∧ (q.correct_answer.getD [] ∉ q.answers.getD []
        → is_correct (q.answers.getD []) i (q.correct_answer.getD [])
            = false) := by
  constructor
  · simp [is_correct]
  · intro hnc
    simp only [is_correct, decide_eq_false_iff_not]
    intro he
    rw [List.getD_eq_getElem (q.answers.getD []) [] hi] at he
    exact hnc (he ▸ List.getElem_mem hi)

/-- Witness for C2 at the mismatched record `qMismatch` and choice 0. -/
theorem c2_witness :
    0 < (qMismatch.answers.getD []).length
    ∧ ((is_correct (qMismatch.answers.getD []) 0
          (qMismatch.correct_answer.getD []) = true
        ↔ (qMismatch.answers.getD []).getD 0 []
            = qMismatch.correct_answer.getD [])
      ∧ (qMismatch.correct_answer.getD [] ∉ qMismatch.answers.getD []
          → is_correct (qMismatch.answers.getD []) 0
              (qMismatch.correct_answer.getD []) = false)) :=
  ⟨by decide, c2_exact_equality_judgement qMismatch 0 (by decide)⟩

/-- C4: rendering an answer action token for a valid
(questionIndex, choiceIndex, mode) triple and parsing it back, the way
`handle_answer` does, reproduces exactly the same triple. -/
theorem c4_token_round_trip (question_num idx : Nat) (mode : List Char)
    (hm : mode = str "continuous" ∨ mode = str "select") :
    parse_answer_token (answer_token question_num idx mode)
      = (question_num, idx, mode) := by
  rcases hm with h | h <;> subst h
  · exact parse_answer_token_round question_num idx _ (by decide)
  · exact parse_answer_token_round question_num idx _ (by decide)

/-- Witness for C4 at the triple (5, 2, "continuous"). -/
theorem c4_witness :
    (str "continuous" = str "continuous" ∨ str "continuous" = str "select")
    ∧ parse_answer_token (answer_token 5 2 (str "continuous"))
        = (5, 2, str "continuous") :=
  ⟨Or.inl rfl, c4_token_round_trip 5 2 (str "continuous") (Or.inl rfl)⟩

/-- C6: an answer action whose choice index is out of range for the
targeted question's choice list only raises the error toast: the session is
returned unchanged and no evaluation, advance, result screen or any other
effect is produced. -/
theorem c6_out_of_range_choice (questions_data : Bank) (session : Session)
    (q : Question) (question_num idx : Nat) (mode : List Char)
    (hm : '_' ∉ mode)
    (hq : get_question_by_number questions_data question_num = some q)
    (hi : (q.answers.getD []).length ≤ idx) :
    handle_answer questions_data session (answer_token question_num idx mode)
      = (session, [.answerCallback (some (str "❌ Ошибка!"))]) := by
  simp only [handle_answer, parse_answer_token_round question_num idx mode hm, hq]
  cases hemp : q.isEmptyDict <;> simp [hemp, hi]

/-- Witness for C6: choice index 5 against the two-choice `qA`. -/
theorem c6_witness :
    ('_' ∉ str "continuous"
      ∧ get_question_by_number bank1 1 = some qA
      ∧ (qA.answers.getD []).length ≤ 5)
    ∧ handle_answer bank1 session0 (answer_token 1 5 (str "continuous"))
        = (session0, [.answerCallback (some (str "❌ Ошибка!"))]) :=
  ⟨by decide,
   c6_out_of_range_choice bank1 session0 qA 1 5 (str "continuous")
     (by decide) (by decide) (by decide)⟩

/-- C7: the result-screen renderer cuts a body text strictly longer than
4000 characters exactly at the 4000 boundary — the first segment (with the
keyboard attached) is the first 4000 characters, the remainder is sent as a
fresh message with no keyboard, and the two segments concatenate back to
the original text; a text of at most 4000 characters goes out as a single
edit with the keyboard. -/
theorem c7_long_text_cut (t : List Char) (kb : Keyboard) :
    edit_or_split t kb
      = (if 4000 < t.length then
          [.editText (t.take 4000) (some kb),
           .sendMessage (t.drop 4000) none]
         else [.editText t (some kb)])
    ∧ t.take 4000 ++ t.drop 4000 = t
    ∧ (t.take 4000).length = min 4000 t.length :=
  ⟨rfl, List.take_append_drop 4000 t, List.length_take 4000 t⟩

/-- C10 counterexample: the in-range empty record `{}` is missing its
`question<n>` text field — squarely in the claim's scope — yet showing it
renders the inline not-found message (Python's `if not question_data:`
treats `{}` as falsy), not the load-error message the claim states. -/
theorem c10_counterexample :
    dictGet qEmptyRec.textFields (get_question_key 1) = []
    ∧ get_question_by_number bankEmptyRec 1 = some qEmptyRec
    ∧ show_question bankEmptyRec 1 (str "select")
        = [.editText (str "❌ Вопрос не найден!") none]
    ∧ show_question bankEmptyRec 1 (str "select")
        ≠ [.editText (str "❌ Ошибка загрузки вопроса!") none] :=
  ⟨by decide, by decide, by decide, by decide⟩

/-- C10 (amended): a question that resolves in the bank but has an empty
(or absent) prompt text, or an empty answers list, renders exactly one
inline error edit with no choice buttons and nothing else — the load-error
message when the record has at least one key, and the not-found message
when the record is the fully-empty dict `{}` (falsy in Python). -/
theorem c10_amended_error_screen (questions_data : Bank)
    (question_num : Nat) (q : Question) (mode : List Char)
    (hq : get_question_by_number questions_data question_num = some q)
    (he : dictGet q.textFields (get_question_key question_num) = []
      ∨ q.answers.getD [] = []) :
    show_question questions_data question_num mode
      = [.editText
          (if q.isEmptyDict then str "❌ Вопрос не найден!"
           else str "❌ Ошибка загрузки вопроса!") none] := by
  simp only [show_question, hq]
  cases hemp : q.isEmptyDict
  · rcases he with h | h <;> simp [hemp, h]
  · simp [hemp]

/-- Witness for C10 (amended): `bankNoText`'s only record is non-empty but
has no prompt field. -/
theorem c10_witness :
    (get_question_by_number bankNoText 1 = some qNoText
      ∧ (dictGet qNoText.textFields (get_question_key 1) = []
        ∨ qNoText.answers.getD [] = []))
    ∧ show_question bankNoText 1 (str "select")
        = [.editText
            (if qNoText.isEmptyDict then str "❌ Вопрос не найден!"
             else str "❌ Ошибка загрузки вопроса!") none] :=
  ⟨⟨by decide, Or.inl (by decide)⟩,
   c10_amended_error_screen bankNoText 1 qNoText (str "select")
     (by decide) (Or.inl (by decide))⟩

/-- C1 counterexample: with a one-question bank (N = 1), answering question
N = 1 correctly in Continuous mode does not transition to Completed — the
code compares against the constant 60, auto-advances to question 2 and
renders the not-found error; the completion screen never appears. -/
theorem c1_counterexample :
    bank1.length = 1
    ∧ (handle_answer bank1 session0 (answer_token 1 0 (str "continuous"))).2
        = [.answerCallback none, .editText praiseText none, .sleepPause,
           .editText (str "❌ Вопрос не найден!") none]
    ∧ Effect.editText completedText (some [[menuButton]])
        ∉ (handle_answer bank1 session0
            (answer_token 1 0 (str "continuous"))).2 :=
  ⟨rfl, by decide, by decide⟩

/-- C1 (amended): in Continuous mode a correct answer to question n < 60
(the hard-coded bound, not the bank length) advances the session to n + 1
and, after the pacing pause with no further user action, renders question
n + 1's screen; a correct answer to question 60 renders the Completed
screen after the same pause. -/
theorem c1_amended_const60 (questions_data : Bank) (session : Session)
    (q : Question) (n i : Nat)
    (hq : get_question_by_number questions_data n = some q)
    (hi : i < (q.answers.getD []).length)
    (hc : (q.answers.getD []).getD i [] = q.correct_answer.getD []) :
    (n < 60 →
      handle_answer questions_data session (answer_token n i (str "continuous"))
        = ({ session with current_question := some (n + 1) },
           [.answerCallback none, .editText praiseText none, .sleepPause]
             ++ show_question questions_data (n + 1) (str "continuous")))
    ∧ (n = 60 →
      handle_answer questions_data session (answer_token n i (str "continuous"))
        = (session,
           [.answerCallback none, .editText praiseText none, .sleepPause,
            .editText completedText (some [[menuButton]])])) := by
  have hp := parse_answer_token_round n i (str "continuous") (by decide)
  have hemp := isEmptyDict_false_of_index hi
  rw [List.getD_eq_getElem?_getD] at hc
  constructor
  · intro hn
    simp only [handle_answer, hp, hq]
    simp [hemp, is_correct, hc, Nat.not_le.mpr hi, Nat.succ_le_of_lt hn]
  · intro hn
    subst hn
    simp only [handle_answer, hp, hq]
    simp [hemp, is_correct, hc, Nat.not_le.mpr hi]

/-- Witness for C1 (amended) at question 1 of the three-question bank. -/
theorem c1_witness :
    (get_question_by_number bank3 1 = some qA
      ∧ 0 < (qA.answers.getD []).length
      ∧ (qA.answers.getD []).getD 0 [] = qA.correct_answer.getD [])
    ∧ ((1 < 60 →
        handle_answer bank3 session0 (answer_token 1 0 (str "continuous"))
          = ({ session0 with current_question := some 2 },
             [.answerCallback none, .editText praiseText none, .sleepPause]
               ++ show_question bank3 2 (str "continuous")))
      ∧ (1 = 60 →
        handle_answer bank3 session0 (answer_token 1 0 (str "continuous"))
          = (session0,
             [.answerCallback none, .editText praiseText none, .sleepPause,
              .editText completedText (some [[menuButton]])]))) :=
  ⟨⟨by decide, by decide, by decide⟩,
   c1_amended_const60 bank3 session0 qA 1 0 (by decide) (by decide) (by decide)⟩

/-- C3 counterexample: with a one-question bank (N = 1), an incorrect
answer to question N = 1 in Continuous mode still offers the explicit
'next question' action (targeting the nonexistent question 2), because the
code compares against the constant 60, not the bank length. -/
theorem c3_counterexample :
    bank1.length = 1
    ∧ (handle_answer bank1 session0 (answer_token 1 1 (str "continuous"))).2
        = [.answerCallback none,
           .editText (wrongText (str "A"))
             (some [[nextButton 2], [menuButton]])] :=
  ⟨rfl, by decide⟩

/-- C3 (amended): in Continuous mode an incorrect answer never
auto-advances — the session is returned unchanged, no pacing pause occurs,
and the result screen's keyboard carries the 'next question' button exactly
when n < 60 (the hard-coded bound, not the bank length); question n + 1 is
reached only when the user fires that button's token, which
`handle_next_question` turns into the question-(n+1) screen. -/
theorem c3_amended_const60 (questions_data : Bank) (session : Session)
    (q : Question) (n i : Nat)
    (hq : get_question_by_number questions_data n = some q)
    (hi : i < (q.answers.getD []).length)
    (hw : (q.answers.getD []).getD i [] ≠ q.correct_answer.getD []) :
    handle_answer questions_data session (answer_token n i (str "continuous"))
      = (session,
         .answerCallback none ::
           edit_or_split (wrongText (q.correct_answer.getD []))
             ((if n + 1 ≤ 60 then [[nextButton (n + 1)]] else [])
               ++ [[menuButton]]))
    ∧ Effect.sleepPause
        ∉ (handle_answer questions_data session
            (answer_token n i (str "continuous"))).2
    ∧ (∀ s : Session,
        handle_next_question questions_data s
            (str "next_question_" ++ natDigits (n + 1) ++ str "_continuous")
          = ({ s with current_question := some (n + 1) },
             show_question questions_data (n + 1) (str "continuous")
               ++ [.answerCallback none])) := by
  have hp := parse_answer_token_round n i (str "continuous") (by decide)
  have hemp := isEmptyDict_false_of_index hi
  have h1 : handle_answer questions_data session
      (answer_token n i (str "continuous"))
      = (session,
         .answerCallback none ::
           edit_or_split (wrongText (q.correct_answer.getD []))
             ((if n + 1 ≤ 60 then [[nextButton (n + 1)]] else [])
               ++ [[menuButton]])) := by
    rw [List.getD_eq_getElem?_getD] at hw
    simp only [handle_answer, hp, hq]
    simp [hemp, is_correct, hw, Nat.not_le.mpr hi]
  refine ⟨h1, ?_, ?_⟩
  · rw [h1]
    simp only [List.mem_cons, not_or]
    exact ⟨by simp, sleepPause_not_mem_edit_or_split _ _⟩
  · intro s
    unfold handle_next_question
    rw [splitOn_next_token]
    simp [parseDigits_natDigits]

/-- Witness for C3 (amended): the wrong choice 1 on question 1 of the
three-question bank. -/
theorem c3_witness :
    (get_question_by_number bank3 1 = some qA
      ∧ 1 < (qA.answers.getD []).length
      ∧ (qA.answers.getD []).getD 1 [] ≠ qA.correct_answer.getD [])
    ∧ (handle_answer bank3 session0 (answer_token 1 1 (str "continuous"))
        = (session0,
           .answerCallback none ::
             edit_or_split (wrongText (qA.correct_answer.getD []))
               ((if 1 + 1 ≤ 60 then [[nextButton 2]] else [])
                 ++ [[menuButton]]))
      ∧ Effect.sleepPause
          ∉ (handle_answer bank3 session0
              (answer_token 1 1 (str "continuous"))).2
      ∧ (∀ s : Session,
          handle_next_question bank3 s
              (str "next_question_" ++ natDigits 2 ++ str "_continuous")
            = ({ s with current_question := some 2 },
               show_question bank3 2 (str "continuous")
                 ++ [.answerCallback none]))) :=
  ⟨⟨by decide, by decide, by decide⟩,
   c3_amended_const60 bank3 session0 qA 1 1 (by decide) (by decide) (by decide)⟩

/-- C5 counterexample: picking question 2 from a one-question bank shows
the inline not-found error without crashing, but the session is not left as
it was: `current_question` and `mode` are written before the lookup fails. -/
theorem c5_counterexample :
    bank1.length = 1
    ∧ select_question bank1 session0 (str "select_q_2")
        = (⟨some 2, some (str "select")⟩,
           [.editText (str "❌ Вопрос не найден!") none, .answerCallback none])
    ∧ (select_question bank1 session0 (str "select_q_2")).1 ≠ session0 :=
  ⟨rfl, by decide, by decide⟩

/-- C5 (amended): an out-of-range pick fails gracefully — the only effects
are the inline not-found edit and the callback acknowledgement, no crash —
but the session is mutated first: `current_question` is set to the
out-of-range number and `mode` to Selective. -/
theorem c5_amended_session_updated (questions_data : Bank)
    (session : Session) (n : Nat)
    (h : n = 0 ∨ questions_data.length < n) :
    select_question questions_data session (str "select_q_" ++ natDigits n)
      = ({ session with current_question := some n,
                        mode := some (str "select") },
         [.editText (str "❌ Вопрос не найден!") none,
          .answerCallback none]) := by
  have hnone : get_question_by_number questions_data n = none := by
    unfold get_question_by_number
    rw [if_neg]
    omega
  unfold select_question
  rw [splitOn_select_token]
  simp [parseDigits_natDigits, show_question, hnone]

/-- Witness for C5 (amended): pick 2 from the one-question bank. -/
theorem c5_witness :
    (2 = 0 ∨ bank1.length < 2)
    ∧ select_question bank1 session0 (str "select_q_" ++ natDigits 2)
        = ({ session0 with current_question := some 2,
                           mode := some (str "select") },
           [.editText (str "❌ Вопрос не найден!") none,
            .answerCallback none]) :=
  ⟨Or.inr (by decide),
   c5_amended_session_updated bank1 session0 2 (Or.inr (by decide))⟩

/-- C9 counterexample: for the three-question bank (N = 3) the
question-selection screen still renders 60 numbered pick buttons, not N —
the keyboard builder ignores the bank entirely. -/
theorem c9_counterexample :
    bank3.length = 3
    ∧ create_question_selection_keyboard.dropLast.flatten.length = 60
    ∧ create_question_selection_keyboard.dropLast.flatten.length
        ≠ bank3.length :=
  ⟨rfl, by decide, by decide⟩

/-- C9 (amended): the question-selection screen always renders exactly 60
numbered pick buttons — 12 rows of 5, labels ascending 1..60 — followed by
one return-to-menu row, independent of the loaded bank's size. -/
theorem c9_amended_always_60 :
    create_question_selection_keyboard
      = ((List.range 12).map fun r => (List.range 5).map fun j =>
          (natDigits (5 * r + j + 1),
           str "select_q_" ++ natDigits (5 * r + j + 1))) ++ [[menuButton]]
    ∧ create_question_selection_keyboard.dropLast.flatten.length = 60
    ∧ create_question_selection_keyboard.dropLast.flatten.map Prod.fst
        = (List.range 60).map (fun k => natDigits (k + 1)) :=
  ⟨by decide, by decide, by decide⟩

/-- C8: the rendered button label for choice i is the full choice text when
its length is at most 64 characters, and its first 61 characters followed
by the "..." marker otherwise; in both cases the question screen's message
body contains the full untruncated choice text. -/
theorem c8_label_truncation_body_full (question_text : List Char)
    (answers : List (List Char)) (question_num : Nat) (mode : List Char)
    (i : Nat) (hi : i < answers.length) :
    (create_answer_keyboard answers question_num mode).getD i []
      = [((if (answers.getD i []).length ≤ 64 then answers.getD i []
           else (answers.getD i []).take 61 ++ str "..."),
          answer_token question_num i mode)]
    ∧ ∃ pre post, question_screen_text question_num question_text answers
        = pre ++ answers.getD i [] ++ post := by
  have ha : answers.getD i [] ∈ answers := by
    rw [List.getD_eq_getElem answers [] hi]
    exact List.getElem_mem hi
  constructor
  · have hm : i < (answers.enum.map (fun p =>
        [((if p.2.length ≤ 64 then p.2 else p.2.take 61 ++ str "..."),
          answer_token question_num p.1 mode)])).length := by
      simpa using hi
    unfold create_answer_keyboard
    rw [List.getD_eq_getElem _ [] (by simp; omega)]
    rw [List.getElem_append_left hm, List.getElem_map]
    rw [List.getElem_enum]
    rw [List.getD_eq_getElem answers [] hi]
  · unfold question_screen_text
    exact foldl_body_contains ha _

/-- A choice list with a 70-character second choice, for the C8 witness. -/
def answersW : List (List Char) := [str "A", List.replicate 70 'x']

/-- Witness for C8: a 70-character choice next to a short one. -/
theorem c8_witness :
    1 < answersW.length
    ∧ ((create_answer_keyboard answersW 1 (str "select")).getD 1 []
        = [((if (answersW.getD 1 []).length ≤ 64 then answersW.getD 1 []
             else (answersW.getD 1 []).take 61 ++ str "..."),
            answer_token 1 1 (str "select"))]
      ∧ ∃ pre post, question_screen_text 1 (str "Q") answersW
          = pre ++ answersW.getD 1 [] ++ post) :=
  ⟨by decide,
   c8_label_truncation_body_full (str "Q") answersW 1 (str "select") 1
     (by decide)⟩

end TBot
